import Mathlib

/-!
A verification development for the authentik-operator reconciliation core.

The Rust sources embedded here:
- `src/resources/authentik/deployment.rs` — `reconcile`, `build`, `get_labels`,
  `get_matching_labels`, `build_env`, `build_env_smtp`;
- `src/akapi/user.rs` — `CreateServiceAccount::send` and its response decoding;
- `src/akapi/flow/delete.rs` — `DeleteFlow::send`;
- `src/akapi/stages/delete.rs` — `DeleteStage::send`.

Machine integers are modelled as `Nat` (no overflow is reachable in the embedded
code paths: ports and HTTP status codes are small constants). Fallible Rust code
is modelled with `Except`; a Rust `panic!`/`.expect(..)` is modelled as a
distinguished `panic` outcome so that a crash is observable and distinct from a
returned error value.
-/

/-! ## Custom-resource data model (`crd` module)

The `crd.rs` file of the repository is not included under `src/`; the field
names and types below are reconstructed from their uses in `deployment.rs`
(which fixes most types: e.g. `EnvVar.value : Option<String>` receives
`obj.secret_key.clone()` directly, so `secret_key` must be `Option<String>`)
and, where a use does not fix the type, modelled from the spec's description
of the Instance Spec. -/

/-- One footer link. Modelled from the spec: `crd.rs` is not under `src/`;
the spec only says the spec carries "footer links" that are serialized to a
JSON string. -/
structure FooterLink where
  name : String
  href : String
deriving DecidableEq

/-- Image section of the Authentik spec: `obj.spec.image.repository`,
`obj.spec.image.tag`, `obj.spec.image.pull_policy` in `deployment.rs`. -/
structure AuthentikImage where
  repository : String
  tag : String
  pull_policy : String
deriving DecidableEq

/-- Postgres section: host, port, database, username, password, and the
optional secret indirection for the password. `password_secret` and
`password_secret_key` are `Option` (the source calls `.clone().zip(...)` on
them); `password` is a plain `String` (wrapped in `Some(..)` at use). -/
structure AuthentikPostgres where
  host : String
  port : Nat
  database : String
  username : String
  password : String
  password_secret : Option String
  password_secret_key : Option String
deriving DecidableEq

/-- Redis section: host, port, optional password (the source matches on
`obj.redis.password.as_ref()`). -/
structure AuthentikRedis where
  host : String
  port : Nat
  password : Option String
deriving DecidableEq

/-- Mail-relay (SMTP) section; every field is used unconditionally once the
section is present. `from_` stands for the Rust field `from` (a Lean keyword). -/
structure AuthentikSmtp where
  host : String
  port : Nat
  from_ : String
  username : String
  password : String
  use_tls : Bool
  use_ssl : Bool
  timeout : Nat
deriving DecidableEq

/-- The Authentik instance spec. `secret_key` is `Option String`: the source
assigns it directly to the `Option<String>`-typed `EnvVar.value` field.
`log_level` and `smtp` are `Option` (the source uses `if let Some(..)`). -/
structure AuthentikSpec where
  image : AuthentikImage
  secret_key : Option String
  footer_links : List FooterLink
  log_level : Option String
  postgres : AuthentikPostgres
  redis : AuthentikRedis
  smtp : Option AuthentikSmtp
deriving DecidableEq

/-- Object metadata of the custom resource, as used by `reconcile`/`build`:
`obj.metadata.name`, `obj.namespace()` and `obj.uid()` (the latter two read
`metadata.namespace` and `metadata.uid`); all three are `Option` in
`kube::core::ObjectMeta`. `namespace_` stands for the Rust field `namespace`
(a Lean keyword). -/
structure AuthentikMeta where
  name : Option String
  namespace_ : Option String
  uid : Option String
deriving DecidableEq

/-- The Authentik custom-resource object. -/
structure Authentik where
  metadata : AuthentikMeta
  spec : AuthentikSpec
deriving DecidableEq

/-! ## k8s types used by the builder (from `k8s_openapi`) -/

/-- `k8s_openapi` `SecretKeySelector` (fields used by the source: `key`,
`name`, `optional`). -/
structure SecretKeySelector where
  key : String
  name : Option String
  optional : Option Bool
deriving DecidableEq

/-- `k8s_openapi` `EnvVarSource`. The source always sets
`config_map_key_ref`, `field_ref` and `resource_field_ref` to `None` and only
ever populates `secret_key_ref`; the three always-`None` selector fields are
not represented. -/
structure EnvVarSource where
  secret_key_ref : Option SecretKeySelector
deriving DecidableEq

/-- `k8s_openapi` `EnvVar`: a name, an optional literal value, and an optional
source (secret reference). -/
structure EnvVar where
  name : String
  value : Option String
  value_from : Option EnvVarSource
deriving DecidableEq

/-! ## Footer-link serialization

The source runs `serde_json::to_string(&obj.footer_links).expect("Invalid footer")`.
Serialization of this data never fails; the JSON emitter is reproduced here
(serde escapes `"` and `\` in strings; control characters do not appear in the
claims and are escaped the same way serde does not need to be reproduced for
them beyond `"`/`\`). -/

/-- Escape one character for a JSON string literal. -/
def jsonEscapeChar (c : Char) : String :=
  if c = '"' then "\\\"" else if c = '\\' then "\\\\" else String.singleton c

/-- Render a JSON string literal. -/
def jsonString (s : String) : String :=
  "\"" ++ String.join (s.toList.map jsonEscapeChar) ++ "\""

/-- Render one footer link as a JSON object. -/
def footerLinkJson (l : FooterLink) : String :=
  "\x7b" ++ jsonString "name" ++ ":" ++ jsonString l.name ++ ","
      ++ jsonString "href" ++ ":" ++ jsonString l.href ++ "\x7d"

/-- `serde_json::to_string` of the footer-links list. -/
def serializeFooterLinks (links : List FooterLink) : String :=
  "[" ++ String.intercalate "," (links.map footerLinkJson) ++ "]"

/-! ## `build_env` / `build_env_smtp` (deployment.rs lines 121-272) -/

/-- `build_env_smtp`: no SMTP section in the spec yields no entries; a present
section yields the eight mail-relay entries, all literal. -/
def build_env_smtp (obj : Option AuthentikSmtp) : List EnvVar :=
  match obj with
  | none => []
  | some obj =>
    [ ⟨"AUTHENTIK_EMAIL__HOST", some obj.host, none⟩,
      ⟨"AUTHENTIK_EMAIL__PORT", some (toString obj.port), none⟩,
      ⟨"AUTHENTIK_EMAIL__FROM", some obj.from_, none⟩,
      ⟨"AUTHENTIK_EMAIL__USERNAME", some obj.username, none⟩,
      ⟨"AUTHENTIK_EMAIL__PASSWORD", some obj.password, none⟩,
      ⟨"AUTHENTIK_EMAIL__USE_TLS", some (toString obj.use_tls), none⟩,
      ⟨"AUTHENTIK_EMAIL__USE_SSL", some (toString obj.use_ssl), none⟩,
      ⟨"AUTHENTIK_EMAIL__TIMEOUT", some (toString obj.timeout), none⟩ ]

/-- `build_env`: the ordered environment of both containers. Note that the
first entry assigns `obj.secret_key` (an `Option String`) directly to the
`value` field, and that the database-password entry is a secret reference
exactly when `password_secret.zip(password_secret_key)` is `Some`, i.e. when
both options are `Some` (the `.zip` of the source is written out as a match
on the pair). -/
def build_env (obj : AuthentikSpec) : List EnvVar :=
  let env : List EnvVar :=
    [ ⟨"AUTHENTIK_SECRET_KEY", obj.secret_key, none⟩,
      ⟨"AUTHENTIK_FOOTER_LINKS", some (serializeFooterLinks obj.footer_links), none⟩,
      ⟨"AUTHENTIK_DISABLE_STARTUP_ANALYTICS", some "true", none⟩,
      ⟨"AUTHENTIK_ERROR_REPORTING__ENABLED", some "false", none⟩,
      ⟨"AUTHENTIK_POSTGRESQL__HOST", some obj.postgres.host, none⟩,
      ⟨"AUTHENTIK_POSTGRESQL__PORT", some (toString obj.postgres.port), none⟩,
      ⟨"AUTHENTIK_POSTGRESQL__NAME", some obj.postgres.database, none⟩,
      ⟨"AUTHENTIK_POSTGRESQL__USER", some obj.postgres.username, none⟩,
      ⟨"AUTHENTIK_REDIS__HOST", some obj.redis.host, none⟩,
      ⟨"AUTHENTIK_REDIS__PORT", some (toString obj.redis.port), none⟩ ]
  let env := env ++ (match obj.log_level with
    | some log_level => [⟨"AUTHENTIK_LOG_LEVEL", some log_level, none⟩]
    | none => [])
  let env := env ++ (match obj.postgres.password_secret, obj.postgres.password_secret_key with
    | some secret, some key =>
      [⟨"AUTHENTIK_POSTGRESQL__PASSWORD", none,
        some ⟨some ⟨key, some secret, some false⟩⟩⟩]
    | _, _ =>
      [⟨"AUTHENTIK_POSTGRESQL__PASSWORD", some obj.postgres.password, none⟩])
  let env := env ++ (match obj.redis.password with
    | some password => [⟨"AUTHENTIK_REDIS__PASSWORD", some password, none⟩]
    | none => [])
  env ++ build_env_smtp obj.smtp

/-! ## Labels (deployment.rs lines 96-119)

Rust's `BTreeMap<String, String>` is modelled as an association list together
with a `BTreeMap::insert`-style operation (replace the value when the key is
present, add the pair otherwise); the claims about label sets are about which
key/value pairs are present, which the association-list model captures. -/

/-- Lookup in an association list of labels (first match). -/
def lookupLabel : List (String × String) → String → Option String
  | [], _ => none
  | (k, v) :: rest, key => if k == key then some v else lookupLabel rest key

/-- `BTreeMap::insert`: replace the value at the key when present, otherwise
append the pair. -/
def insertLabel (m : List (String × String)) (k v : String) : List (String × String) :=
  if m.any (fun p => p.1 == k) then
    m.map (fun p => if p.1 == k then (k, v) else p)
  else
    m ++ [(k, v)]

/-- `get_matching_labels`: the stable selector subset. -/
def get_matching_labels (inst : String) : List (String × String) :=
  [ ("app.kubernetes.io/name", "authentik"),
    ("app.kubernetes.io/component", "server"),
    ("app.kubernetes.io/instance", inst) ]

/-- `get_labels`: the matching labels plus `created-by` and `version`. -/
def get_labels (inst : String) (version : String) : List (String × String) :=
  insertLabel
    (insertLabel (get_matching_labels inst)
      "app.kubernetes.io/created-by" "authentik-operator")
    "app.kubernetes.io/version" version

/-! ## The Deployment manifest and `build` (deployment.rs lines 45-94)

The `json!` literal of the source is deserialized into a
`k8s_openapi ... Deployment`; the structures below mirror exactly the fields
the literal populates. The shape of the literal statically matches the
`Deployment` schema, so `serde_json::from_value` cannot fail on it; the one
runtime failure in `build` is `obj.uid().expect("Failed to get UID of Authentik.")`,
a panic, modelled as the `panic` outcome. -/

/-- `ownerReferences` entry of the manifest. -/
structure OwnerReference where
  apiVersion : String
  kind : String
  name : String
  uid : String
  controller : Bool
deriving DecidableEq

/-- One container port of the manifest. -/
structure ContainerPort where
  name : String
  containerPort : Nat
  protocol : String
deriving DecidableEq

/-- One container of the pod template. `ports` is `Option` because the worker
container's JSON carries no `ports` key at all (deserialized as `None`),
while the server's carries a one-element list. -/
structure Container where
  name : String
  image : String
  imagePullPolicy : String
  args : List String
  ports : Option (List ContainerPort)
  env : List EnvVar
deriving DecidableEq

/-- The pod template: labels on its metadata and the container list. -/
structure PodTemplate where
  labels : List (String × String)
  containers : List Container
deriving DecidableEq

/-- The Deployment spec: replicas, selector, template. -/
structure DeploymentSpec where
  replicas : Nat
  selectorMatchLabels : List (String × String)
  template : PodTemplate
deriving DecidableEq

/-- The Deployment manifest produced by `build`. -/
structure Deployment where
  apiVersion : String
  kind : String
  name : String
  labels : List (String × String)
  ownerReferences : List OwnerReference
  spec : DeploymentSpec
deriving DecidableEq

/-- `ReconcileError` (from the repository's error type, referenced as
`crate::ReconcileError`; `error.rs` is not under `src/`). Modelled from the
spec: build errors are `InvalidObj` (missing required identifying field) and
`NoNamespace` (object not namespaced); a manifest-assembly (serde) error and
a cluster-API error are distinct further variants. -/
inductive ReconcileError where
  | InvalidObj (msg : String)
  | NoNamespace (inst : String)
  | SerializationError (msg : String)
  | KubeError (msg : String)
deriving DecidableEq

/-- A failed outcome of `build`/`reconcile`: either a Rust panic (from an
`.expect(..)`) — a crash, not a returned value — or a returned
`ReconcileError`. -/
inductive ReconcileFailure where
  | panic (msg : String)
  | err (e : ReconcileError)
deriving DecidableEq

/-- `build`: constructs the Deployment manifest for instance `name`. The
`json!` literal evaluates `obj.uid().expect(..)` while being built, so a
missing UID panics before any manifest exists; with a UID present the
manifest is produced exactly as in the literal. -/
def build (name : String) (obj : Authentik) : Except ReconcileFailure Deployment :=
  match obj.metadata.uid with
  | none => .error (.panic "Failed to get UID of Authentik.")
  | some uid => .ok
    { apiVersion := "apps/v1"
      kind := "Deployment"
      name := "authentik-" ++ name
      labels := get_labels name obj.spec.image.tag
      ownerReferences := [⟨"ak.dany.dev/v1", "Authentik", name, uid, true⟩]
      spec :=
        { replicas := 1
          selectorMatchLabels := get_matching_labels name
          template :=
            { labels := get_labels name obj.spec.image.tag
              containers :=
                [ { name := "authentik-" ++ name ++ "-server"
                    image := obj.spec.image.repository ++ ":" ++ obj.spec.image.tag
                    imagePullPolicy := obj.spec.image.pull_policy
                    args := ["server"]
                    ports := some [⟨"http", 9000, "TCP"⟩]
                    env := build_env obj.spec },
                  { name := "authentik-" ++ name ++ "-worker"
                    image := obj.spec.image.repository ++ ":" ++ obj.spec.image.tag
                    imagePullPolicy := obj.spec.image.pull_policy
                    args := ["worker"]
                    ports := none
                    env := build_env obj.spec } ] } } }

/-! ## `reconcile` (deployment.rs lines 17-39)

The cluster interaction is modelled by (a) a probe function standing for
`api.get_opt(name)` — `some ()` when a Deployment of that name exists in the
instance's namespace, `none` otherwise — and (b) the single cluster call the
function then performs, returned as a `ClusterAction` value. The source
performs exactly one of `api.create(..)` and `api.patch(..)` per invocation. -/

/-- The cluster call performed by a successful `reconcile`: either
`api.create(&PostParams::default(), manifest)` or
`api.patch(name, &PatchParams::apply(manager).force(), &Patch::Apply(manifest))`. -/
inductive ClusterAction where
  | create (manifest : Deployment)
  | applyPatch (name : String) (fieldManager : String) (force : Bool) (manifest : Deployment)
deriving DecidableEq

/-- `reconcile`: extract the instance name (`InvalidObj` when missing) and the
namespace (`NoNamespace` when missing), probe for `authentik-{instance}`, and
create (absent) or force-apply-patch (present) the built manifest. -/
def reconcile (obj : Authentik) (probe : String → Option Unit) :
    Except ReconcileFailure ClusterAction :=
  match obj.metadata.name with
  | none => .error (.err (.InvalidObj "Missing instance name."))
  | some inst =>
    match obj.metadata.namespace_ with
    | none => .error (.err (.NoNamespace inst))
    | some _ns =>
      match probe ("authentik-" ++ inst) with
      | some _ =>
        match build inst obj with
        | .error f => .error f
        | .ok manifest =>
          .ok (.applyPatch ("authentik-" ++ inst) "authentik.ak-operator" true manifest)
      | none =>
        match build inst obj with
        | .error f => .error f
        | .ok manifest => .ok (.create manifest)

/-! ## The remote-API error type

`error.rs` (the `AKApiError` definition) is not under `src/`; the variants
are those constructed in `src/akapi` (`AKApiError::StreamError` for a body
read failure, `AKApiError::SerializeError` for a serde failure) plus the
connection-level failure the spec names `ConnectionError`. Payloads (the
wrapped hyper/serde error values) are not represented. -/

/-- The shared transport/decode error type of the remote-API client.
Modelled from the spec: `error.rs` is not under `src/`; `StreamError` and
`SerializeError` are the variants `user.rs` constructs, `ConnectionError` is
the connection-level failure of the spec's uniform transport error set. -/
inductive AKApiError where
  | ConnectionError
  | StreamError
  | SerializeError
deriving DecidableEq

/-! ## JSON values and serde decoding (user.rs lines 37-59)

`serde_json` values are modelled by `Json`; `serde_json::from_slice` for the
derived `Deserialize` of `CreateServiceAccountResponse` visits the top-level
object's fields in order: a declared field seen a second time is a
duplicate-field error, a declared field with a wrong-typed value is an error,
unknown fields are ignored (serde's default), and at the end of input every
declared field must have been seen (missing-field error otherwise). -/

/-- A JSON value (arrays are not needed by any embedded payload; numbers are
the `Nat`-valued ones that can inhabit the `usize` field `user_pk`). -/
inductive Json where
  | null
  | bool (b : Bool)
  | num (n : Nat)
  | str (s : String)
  | obj (fields : List (String × Json))

/-- Decode a JSON value as a string. -/
def Json.asStr : Json → Option String
  | .str s => some s
  | _ => none

/-- Decode a JSON value as a natural number (Rust `usize`). -/
def Json.asNat : Json → Option Nat
  | .num n => some n
  | _ => none

/-- `CreateServiceAccountResponse`: the decoded success payload of the
create-service-account route. -/
structure CreateServiceAccountResponse where
  username : String
  user_uid : String
  user_pk : Nat
  token : String
deriving DecidableEq

/-- One visit of a declared field: serde first rejects a field that was
already seen (`duplicate field` error — `cur` is `some`), then deserializes
the value at its declared type (`new` is `none` on a type mismatch); the
result is the updated slot, or `none` for the error. -/
def setField (cur : Option α) (new : Option α) : Option (Option α) :=
  match cur, new with
  | none, some x => some (some x)
  | _, _ => none

/-- End of input: every declared field must have been seen, else serde
reports a `missing field` error. -/
def finishDecode : Option String → Option String → Option Nat →
    Option String → Option CreateServiceAccountResponse
  | some u, some i, some p, some t => some ⟨u, i, p, t⟩
  | _, _, _, _ => none

/-- The field-visiting loop of the derived `Deserialize` of
`CreateServiceAccountResponse`: the four `Option` arguments are the
already-seen declared fields. A declared field that is already set is a
duplicate-field error; a declared field whose value has the wrong type is an
error; an unknown field is skipped; at the end of input all four declared
fields must have been set. -/
def decodeCreateServiceAccountFields (fields : List (String × Json))
    (u i : Option String) (p : Option Nat) (t : Option String) :
    Option CreateServiceAccountResponse :=
  match fields with
  | [] => finishDecode u i p t
  | kv :: rest =>
    if kv.1 == "username" then
      match setField u kv.2.asStr with
      | some u => decodeCreateServiceAccountFields rest u i p t
      | none => none
    else if kv.1 == "user_uid" then
      match setField i kv.2.asStr with
      | some i => decodeCreateServiceAccountFields rest u i p t
      | none => none
    else if kv.1 == "user_pk" then
      match setField p kv.2.asNat with
      | some p => decodeCreateServiceAccountFields rest u i p t
      | none => none
    else if kv.1 == "token" then
      match setField t kv.2.asStr with
      | some t => decodeCreateServiceAccountFields rest u i p t
      | none => none
    else
      decodeCreateServiceAccountFields rest u i p t

/-- The derived `Deserialize` of `CreateServiceAccountResponse`: a top-level
JSON object visited field by field; anything that is not an object is an
error. -/
def decodeCreateServiceAccountResponse (j : Json) :
    Option CreateServiceAccountResponse :=
  match j with
  | .obj fields => decodeCreateServiceAccountFields fields none none none none
  | _ => none

/-! ## HTTP responses as seen by the routes

`hyper::Response` is reduced to what the routes consume: the status code, and
the body. Reading the body (`hyper::body::to_bytes`) can fail — `unreadable`,
mapped to `AKApiError::StreamError` — and a successfully read body either
parses as a JSON value or not (`content (some j)` / `content none`, the
latter mapped to `AKApiError::SerializeError` by `serde_json::from_slice`). -/

/-- The body of a received HTTP response. -/
inductive HttpBody where
  | unreadable
  | content (parsed : Option Json)

/-- A received HTTP response: status code and body. -/
structure HttpResponse where
  status : Nat
  body : HttpBody

/-- `CreateServiceAccountBody`: the request body `{name, create_group}`. -/
structure CreateServiceAccountBody where
  name : String
  create_group : Bool
deriving DecidableEq

/-- `CreateServiceAccountError`: `ExistsError` on a 400, `RequestError`
wrapping the shared `AKApiError` for everything transport/decode. -/
inductive CreateServiceAccountError where
  | ExistsError
  | RequestError (e : AKApiError)
deriving DecidableEq

/-- `CreateServiceAccount::send` (user.rs lines 19-45), as a function of the
transport outcome of `api.send(POST, "/api/v3/core/users/service_account/",
api_key, Some(body))`: a transport error propagates via `?` as
`RequestError`; a received 400 returns `ExistsError`; otherwise the body is
read (`StreamError` on failure) and decoded (`SerializeError` on failure) —
with no status check beyond the 400 test. The request body and API key do not
affect the classification and are not parameters here. -/
def CreateServiceAccount.send (res : Except AKApiError HttpResponse) :
    Except CreateServiceAccountError CreateServiceAccountResponse :=
  match res with
  | .error e => .error (.RequestError e)
  | .ok r =>
    if r.status == 400 then
      .error .ExistsError
    else
      match r.body with
      | .unreadable => .error (.RequestError .StreamError)
      | .content none => .error (.RequestError .SerializeError)
      | .content (some j) =>
        match decodeCreateServiceAccountResponse j with
        | some v => .ok v
        | none => .error (.RequestError .SerializeError)

/-! ## Percent-encoding (`urlencoding::encode`)

`urlencoding::encode` rewrites each byte of the UTF-8 encoding of the input:
ASCII alphanumerics and `-`, `.`, `_`, `~` pass through; every other byte
becomes `%` followed by two uppercase hexadecimal digits. -/

/-- The UTF-8 bytes of one character (as `Nat`s below 256). -/
def utf8Bytes (c : Char) : List Nat :=
  let n := c.toNat
  if n < 128 then [n]
  else if n < 2048 then [192 + n / 64, 128 + n % 64]
  else if n < 65536 then [224 + n / 4096, 128 + (n / 64) % 64, 128 + n % 64]
  else [240 + n / 262144, 128 + (n / 4096) % 64, 128 + (n / 64) % 64, 128 + n % 64]

/-- The UTF-8 byte sequence of a string. -/
def stringBytes (s : String) : List Nat :=
  (s.toList.map utf8Bytes).flatten

/-- Bytes `urlencoding::encode` passes through unchanged: ASCII alphanumerics
and `-` `.` `_` `~`. -/
def isUrlUnreserved (b : Nat) : Bool :=
  (65 ≤ b && b ≤ 90) || (97 ≤ b && b ≤ 122) || (48 ≤ b && b ≤ 57) ||
    b == 45 || b == 46 || b == 95 || b == 126

/-- Uppercase hexadecimal digit for a value below 16. -/
def hexDigitChar (n : Nat) : Char :=
  if n < 10 then Char.ofNat (48 + n) else Char.ofNat (55 + n)

/-- Percent-encode one byte. -/
def encodeByte (b : Nat) : List Char :=
  if isUrlUnreserved b then [Char.ofNat b]
  else ['%', hexDigitChar (b / 16), hexDigitChar (b % 16)]

/-- `urlencoding::encode`. -/
def urlencode (s : String) : String :=
  String.mk ((stringBytes s).map encodeByte).flatten

/-! ## Delete-flow and delete-stage routes (flow/delete.rs, stages/delete.rs)

`api.send` is modelled as a caller-supplied function from (method, path) to a
transport outcome; the API key and the empty request body `()` play no role
in the routes' classification. Only the response's status is inspected
(`res.status()`); on a status other than 204/404 the source formats
`Unknown(format!("Invalid status code {}", code))` — the status is modelled
by its numeric code, so the message carries the code's decimal form (the
Rust `Display` of `StatusCode` appends the canonical reason phrase after the
number). -/

/-- HTTP method of a remote-API request. -/
inductive HttpMethod where
  | DELETE
  | POST
deriving DecidableEq

/-- `DeleteFlowError`: not found, unexpected status, or wrapped transport
error. -/
inductive DeleteFlowError where
  | NotFound
  | Unknown (msg : String)
  | RequestError (e : AKApiError)
deriving DecidableEq

/-- `DeleteStageError`: not found, unexpected status, or wrapped transport
error. -/
inductive DeleteStageError where
  | NotFound
  | Unknown (msg : String)
  | RequestError (e : AKApiError)
deriving DecidableEq

/-- The request path built by `DeleteFlow::send`:
`format!("/api/v3/flows/instances/{}/", encode(&slug))`. -/
def DeleteFlow.path (slug : String) : String :=
  "/api/v3/flows/instances/" ++ urlencode slug ++ "/"

/-- The request path built by `DeleteStage::send`:
`format!("/api/v3/stages/all/{}/", encode(&slug))`. -/
def DeleteStage.path (slug : String) : String :=
  "/api/v3/stages/all/" ++ urlencode slug ++ "/"

/-- `DeleteFlow::send` (flow/delete.rs lines 20-42): send DELETE to the
percent-encoded path, then classify the received status: 204 → `()`,
404 → `NotFound`, anything else → `Unknown`. -/
def DeleteFlow.send (slug : String)
    (api : HttpMethod → String → Except AKApiError HttpResponse) :
    Except DeleteFlowError Unit :=
  match api .DELETE (DeleteFlow.path slug) with
  | .error e => .error (.RequestError e)
  | .ok res =>
    match res.status with
    | 204 => .ok ()
    | 404 => .error .NotFound
    | code => .error (.Unknown ("Invalid status code " ++ toString code))

/-- `DeleteStage::send` (stages/delete.rs lines 20-42): send DELETE to the
percent-encoded path, then classify the received status: 204 → `()`,
404 → `NotFound`, anything else → `Unknown`. -/
def DeleteStage.send (slug : String)
    (api : HttpMethod → String → Except AKApiError HttpResponse) :
    Except DeleteStageError Unit :=
  match api .DELETE (DeleteStage.path slug) with
  | .error e => .error (.RequestError e)
  | .ok res =>
    match res.status with
    | 204 => .ok ()
    | 404 => .error .NotFound
    | code => .error (.Unknown ("Invalid status code " ++ toString code))

/-! ## Helper predicates and concrete example objects -/

/-- The Environment Entry invariant of the spec: exactly one of the literal
`value` and the secret-reference `value_from` is set. -/
def envEntryExactlyOne (e : EnvVar) : Bool :=
  e.value.isSome ^^ e.value_from.isSome

/-- The database-password entry of the assembled environment: the first (and
only) entry named `AUTHENTIK_POSTGRESQL__PASSWORD`. -/
def dbPasswordEntry (spec : AuthentikSpec) : Option EnvVar :=
  (build_env spec).find? (fun e => e.name == "AUTHENTIK_POSTGRESQL__PASSWORD")

/-- Discriminator for a `build`/`reconcile` outcome that is a returned
`InvalidObj` error value. -/
def isInvalidObjResult (x : Except ReconcileFailure Deployment) : Bool :=
  match x with
  | .error (.err (.InvalidObj _)) => true
  | _ => false

/-- A concrete instance spec (literal database password, secret key present). -/
def exampleSpec : AuthentikSpec :=
  { image := ⟨"ghcr.io/goauthentik/server", "2022.7.3", "IfNotPresent"⟩
    secret_key := some "supersecret"
    footer_links := [⟨"home", "https://example.com"⟩]
    log_level := none
    postgres := ⟨"postgres", 5432, "authentik", "authentik", "pw", none, none⟩
    redis := ⟨"redis", 6379, none⟩
    smtp := none }

/-- A concrete admitted instance object (name, namespace and UID present). -/
def exampleAuthentik : Authentik :=
  { metadata := ⟨some "prod", some "default", some "9f6c4a1e-uid"⟩
    spec := exampleSpec }

/-- The same instance object before admission: no UID assigned yet. -/
def authentikNoUid : Authentik :=
  { metadata := ⟨some "prod", some "default", none⟩
    spec := exampleSpec }

/-- `exampleSpec` with the optional secret key absent. -/
def exampleSpecNoSecretKey : AuthentikSpec :=
  { exampleSpec with secret_key := none }

/-- The manifest `build` produces for `exampleAuthentik` (extracted from the
`build` result; the fallback branch is unreachable). -/
def exampleBuiltManifest : Deployment :=
  match build "prod" exampleAuthentik with
  | .ok d => d
  | .error _ =>
    { apiVersion := ""
      kind := ""
      name := ""
      labels := []
      ownerReferences := []
      spec := { replicas := 0, selectorMatchLabels := [], template := { labels := [], containers := [] } } }

/-- The well-formed create-service-account success body of the spec's
forward-compatibility scenario, carrying one extra unknown field. -/
def exampleServiceAccountJson : Json :=
  .obj [("username", .str "bot"), ("user_uid", .str "u1"), ("user_pk", .num 5),
        ("token", .str "abc"), ("extra_field", .str "x")]

/-! ## Theorems -/

/-- C1 (counterexample): for a concrete instance object with no UID, `build`
does not return an `InvalidObj` error value — it panics (the
`.expect("Failed to get UID of Authentik.")` crash), so the claim that the
failure is a recoverable `InvalidObj` condition is false. -/
theorem C1_counterexample :
    build "prod" authentikNoUid = .error (.panic "Failed to get UID of Authentik.") ∧
    isInvalidObjResult (build "prod" authentikNoUid) = false :=
  ⟨rfl, rfl⟩

/-- C1 (amended): for every instance object whose metadata has no assigned
UID, building the Desired Manifest crashes with the panic
`"Failed to get UID of Authentik."` (not a recoverable `InvalidObj` error
value), and this happens for any such instance regardless of the other
fields. -/
theorem C1_build_missing_uid_panics (name : String) (obj : Authentik)
    (h : obj.metadata.uid = none) :
    build name obj = .error (.panic "Failed to get UID of Authentik.") := by
  simp [build, h]

/-- C1 (witness): the amended statement applied to a concrete instance. -/
theorem C1_build_missing_uid_panics_witness :
    authentikNoUid.metadata.uid = none ∧
    build "prod" authentikNoUid = .error (.panic "Failed to get UID of Authentik.") :=
  ⟨rfl, C1_build_missing_uid_panics "prod" authentikNoUid rfl⟩

/-- C2 (counterexample): for a concrete spec whose optional secret key is
absent, the produced environment contains an entry (the
`AUTHENTIK_SECRET_KEY` entry) with neither a literal value nor a secret
reference, so the exactly-one invariant fails as stated. -/
theorem C2_counterexample :
    (build_env exampleSpecNoSecretKey).all envEntryExactlyOne = false ∧
    (build_env exampleSpecNoSecretKey).head? =
      some ⟨"AUTHENTIK_SECRET_KEY", none, none⟩ :=
  ⟨rfl, rfl⟩

/-- C2 (amended): for every Instance Spec that supplies a secret key, every
environment entry produced by `build_env` has exactly one of {literal value,
secret reference} set — never both, never neither. (When the spec's optional
secret key is absent, the secret-key entry has neither.) -/
theorem C2_env_exactly_one_of_literal_or_ref (spec : AuthentikSpec)
    (hsk : spec.secret_key.isSome = true) :
    ∀ e ∈ build_env spec, envEntryExactlyOne e = true := by
  rw [← List.all_eq_true]
  rcases spec with ⟨img, sk, fl, ll, ⟨pgh, pgp, pgd, pgu, pgpw, ps, psk⟩, ⟨rh, rp, rpw⟩, sm⟩
  cases sk with
  | none => simp at hsk
  | some sk =>
    cases ll <;> cases ps <;> cases psk <;> cases rpw <;> cases sm <;> rfl

/-- C2 (witness): the amended statement applied to a concrete spec and a
concrete entry of its environment. -/
theorem C2_env_exactly_one_of_literal_or_ref_witness :
    exampleSpec.secret_key.isSome = true ∧
    (⟨"AUTHENTIK_SECRET_KEY", some "supersecret", none⟩ : EnvVar) ∈ build_env exampleSpec ∧
    envEntryExactlyOne ⟨"AUTHENTIK_SECRET_KEY", some "supersecret", none⟩ = true :=
  ⟨rfl, by decide,
    C2_env_exactly_one_of_literal_or_ref exampleSpec rfl
      ⟨"AUTHENTIK_SECRET_KEY", some "supersecret", none⟩ (by decide)⟩

/-- C3: for every Instance Spec the database-password environment entry is a
secret-reference entry carrying the spec's secret name and key (and no
literal) exactly when both `password_secret` and `password_secret_key` are
supplied, and otherwise a literal entry carrying the plain `password` field. -/
theorem C3_db_password_secret_iff_both (spec : AuthentikSpec) :
    dbPasswordEntry spec = some (
      match spec.postgres.password_secret, spec.postgres.password_secret_key with
      | some secret, some key =>
        ⟨"AUTHENTIK_POSTGRESQL__PASSWORD", none, some ⟨some ⟨key, some secret, some false⟩⟩⟩
      | _, _ =>
        ⟨"AUTHENTIK_POSTGRESQL__PASSWORD", some spec.postgres.password, none⟩) := by
  rcases spec with ⟨img, sk, fl, ll, ⟨pgh, pgp, pgd, pgu, pgpw, ps, psk⟩, rd, sm⟩
  cases ll <;> cases ps <;> cases psk <;> rfl

/-- Lookup is stable under appending labels on the right. -/
theorem lookupLabel_append (m l : List (String × String)) (k v : String)
    (h : lookupLabel m k = some v) : lookupLabel (m ++ l) k = some v := by
  induction m with
  | nil => simp [lookupLabel] at h
  | cons p rest ih =>
    obtain ⟨pk, pv⟩ := p
    rw [List.cons_append]
    unfold lookupLabel at h ⊢
    by_cases hpk : (pk == k) = true
    · rw [if_pos hpk] at h ⊢; exact h
    · rw [if_neg hpk] at h ⊢; exact ih h

/-- C8: every key/value pair of the matching-labels set appears unchanged in
the full label set computed for the same instance and version. -/
theorem C8_matching_labels_subset (inst version k v : String)
    (h : lookupLabel (get_matching_labels inst) k = some v) :
    lookupLabel (get_labels inst version) k = some v := by
  have hg : get_labels inst version =
      (get_matching_labels inst ++
        [("app.kubernetes.io/created-by", "authentik-operator")]) ++
        [("app.kubernetes.io/version", version)] := rfl
  rw [hg]
  exact lookupLabel_append _ _ _ _ (lookupLabel_append _ _ _ _ h)

/-- C8 (witness): the subset property at a concrete instance, version and
label pair. -/
theorem C8_matching_labels_subset_witness :
    lookupLabel (get_matching_labels "prod") "app.kubernetes.io/instance" = some "prod" ∧
    lookupLabel (get_labels "prod" "2022.7.3") "app.kubernetes.io/instance" = some "prod" :=
  ⟨by decide, C8_matching_labels_subset "prod" "2022.7.3" "app.kubernetes.io/instance" "prod" (by decide)⟩

/-- C9: for a reconcile invocation on a named, namespaced object whose build
succeeds, the probe outcome decides the single cluster call performed: a
missing resource is created from the full built manifest, an existing one is
patched with the manifest as a forced server-side apply under the field
manager `authentik.ak-operator`. Exactly one `ClusterAction` is returned per
invocation. -/
theorem C9_reconcile_create_or_patch (obj : Authentik)
    (probe : String → Option Unit) (inst ns : String) (d : Deployment)
    (hn : obj.metadata.name = some inst)
    (hns : obj.metadata.namespace_ = some ns)
    (hb : build inst obj = .ok d) :
    (probe ("authentik-" ++ inst) = none →
      reconcile obj probe = .ok (.create d)) ∧
    (probe ("authentik-" ++ inst) = some () →
      reconcile obj probe =
        .ok (.applyPatch ("authentik-" ++ inst) "authentik.ak-operator" true d)) := by
  constructor <;> intro hp <;> simp [reconcile, hn, hns, hp, hb]

/-- C9 (witness): the create branch at a concrete object and a probe that
reports the resource absent. -/
theorem C9_reconcile_create_or_patch_witness :
    exampleAuthentik.metadata.name = some "prod" ∧
    exampleAuthentik.metadata.namespace_ = some "default" ∧
    build "prod" exampleAuthentik = .ok exampleBuiltManifest ∧
    reconcile exampleAuthentik (fun _ => none) = .ok (.create exampleBuiltManifest) :=
  ⟨rfl, rfl, rfl,
    (C9_reconcile_create_or_patch exampleAuthentik (fun _ => none) "prod" "default"
      exampleBuiltManifest rfl rfl rfl).1 rfl⟩

/-- C10: every successfully built manifest has exactly two containers; the
server container exposes exactly one port, named `http` with container port
9000 and protocol TCP, and the worker container declares no ports at all. -/
theorem C10_server_port_worker_none (name : String) (obj : Authentik)
    (d : Deployment) (hb : build name obj = .ok d) :
    d.spec.template.containers.map (fun c => (c.name, c.ports)) =
      [("authentik-" ++ name ++ "-server", some [⟨"http", 9000, "TCP"⟩]),
       ("authentik-" ++ name ++ "-worker", (none : Option (List ContainerPort)))] := by
  cases hu : obj.metadata.uid with
  | none => simp [build, hu] at hb
  | some uid =>
    simp [build, hu] at hb
    subst hb
    rfl

/-- C10 (witness): the port shape of the manifest built for a concrete
instance. -/
theorem C10_server_port_worker_none_witness :
    build "prod" exampleAuthentik = .ok exampleBuiltManifest ∧
    exampleBuiltManifest.spec.template.containers.map (fun c => (c.name, c.ports)) =
      [("authentik-prod-server", some [⟨"http", 9000, "TCP"⟩]),
       ("authentik-prod-worker", (none : Option (List ContainerPort)))] :=
  ⟨rfl, C10_server_port_worker_none "prod" exampleAuthentik exampleBuiltManifest rfl⟩

/-- C4 (counterexample): a received response with the non-2xx, non-400 status
500 whose body contains the four required fields yields the decoded success
payload — the source never checks for a 2xx status — so the claim that any
other non-2xx status never yields a decoded success payload is false. -/
theorem C4_counterexample :
    CreateServiceAccount.send (.ok ⟨500, .content (some exampleServiceAccountJson)⟩) =
      .ok ⟨"bot", "u1", 5, "abc"⟩ ∧
    ¬ (200 ≤ 500 ∧ 500 < 300) :=
  ⟨rfl, by omega⟩

/-- C4 (amended): for every create-service-account request, a response with
status 400 yields the `ExistsError` outcome; a response with ANY other status
(2xx or not) is decoded: a body containing the four required fields yields
the decoded success payload, an unreadable body yields the stream transport
error, and a body that does not decode yields the decode error; a transport
failure propagates as `RequestError`. -/
theorem C4_send_classification (status : Nat) (body : HttpBody) :
    (status = 400 →
      CreateServiceAccount.send (.ok ⟨status, body⟩) = .error .ExistsError) ∧
    (status ≠ 400 → ∀ j v, body = .content (some j) →
      decodeCreateServiceAccountResponse j = some v →
      CreateServiceAccount.send (.ok ⟨status, body⟩) = .ok v) ∧
    (status ≠ 400 → ∀ j, body = .content (some j) →
      decodeCreateServiceAccountResponse j = none →
      CreateServiceAccount.send (.ok ⟨status, body⟩) =
        .error (.RequestError .SerializeError)) ∧
    (status ≠ 400 → body = .content none →
      CreateServiceAccount.send (.ok ⟨status, body⟩) =
        .error (.RequestError .SerializeError)) ∧
    (status ≠ 400 → body = .unreadable →
      CreateServiceAccount.send (.ok ⟨status, body⟩) =
        .error (.RequestError .StreamError)) ∧
    (∀ e, CreateServiceAccount.send (.error e) = .error (.RequestError e)) := by
  refine ⟨?_, ?_, ?_, ?_, ?_, ?_⟩
  · intro h
    simp [CreateServiceAccount.send, h]
  · intro hne j v hj hdec
    subst hj
    simp [CreateServiceAccount.send, beq_iff_eq, hne, hdec]
  · intro hne j hj hdec
    subst hj
    simp [CreateServiceAccount.send, beq_iff_eq, hne, hdec]
  · intro hne hj
    subst hj
    simp [CreateServiceAccount.send, beq_iff_eq, hne]
  · intro hne hj
    subst hj
    simp [CreateServiceAccount.send, beq_iff_eq, hne]
  · intro e
    rfl

/-- C4 (witness): the amended classification at concrete inputs — a 400
yields `ExistsError` and a 201 with a well-formed body yields the decoded
payload. -/
theorem C4_send_classification_witness :
    CreateServiceAccount.send (.ok ⟨400, .content none⟩) = .error .ExistsError ∧
    CreateServiceAccount.send (.ok ⟨201, .content (some exampleServiceAccountJson)⟩) =
      .ok ⟨"bot", "u1", 5, "abc"⟩ :=
  ⟨(C4_send_classification 400 (.content none)).1 rfl,
   (C4_send_classification 201 (.content (some exampleServiceAccountJson))).2.1
     (by decide) exampleServiceAccountJson ⟨"bot", "u1", 5, "abc"⟩ rfl rfl⟩

/-- Visiting only unknown (non-declared) fields preserves a fully populated
decoder state. -/
theorem decodeFields_ignores_unknown :
    ∀ (extras : List (String × Json)) (u i : String) (p : Nat) (t : String),
      (∀ kv ∈ extras, kv.1 ≠ "username" ∧ kv.1 ≠ "user_uid" ∧
        kv.1 ≠ "user_pk" ∧ kv.1 ≠ "token") →
      decodeCreateServiceAccountFields extras (some u) (some i) (some p) (some t) =
        some ⟨u, i, p, t⟩ := by
  intro extras
  induction extras with
  | nil => intro u i p t _; rfl
  | cons kv rest ih =>
    intro u i p t h
    obtain ⟨h1, h2, h3, h4⟩ := h kv (List.mem_cons_self _ _)
    have hb1 : (kv.1 == "username") = false := beq_eq_false_iff_ne.mpr h1
    have hb2 : (kv.1 == "user_uid") = false := beq_eq_false_iff_ne.mpr h2
    have hb3 : (kv.1 == "user_pk") = false := beq_eq_false_iff_ne.mpr h3
    have hb4 : (kv.1 == "token") = false := beq_eq_false_iff_ne.mpr h4
    rw [decodeCreateServiceAccountFields]
    simp only [hb1, hb2, hb3, hb4, Bool.false_eq_true, if_false]
    exact ih u i p t (fun kv hkv => h kv (List.mem_cons_of_mem _ hkv))

/-- A body none of whose fields is named `username` cannot complete
decoding. -/
theorem decodeFields_missing_username :
    ∀ (fields : List (String × Json)) (i : Option String) (p : Option Nat)
      (t : Option String),
      (∀ kv ∈ fields, kv.1 ≠ "username") →
      decodeCreateServiceAccountFields fields none i p t = none := by
  intro fields
  induction fields with
  | nil => intro i p t _; rfl
  | cons kv rest ih =>
    intro i p t h
    have hb1 : (kv.1 == "username") = false :=
      beq_eq_false_iff_ne.mpr (h kv (List.mem_cons_self _ _))
    have hrest := fun kv hkv => h kv (List.mem_cons_of_mem _ hkv)
    rw [decodeCreateServiceAccountFields]
    simp only [hb1, Bool.false_eq_true, if_false]
    by_cases hb2 : (kv.1 == "user_uid") = true
    · rw [if_pos hb2]
      cases hsf : setField i kv.2.asStr with
      | none => rfl
      | some i2 => exact ih i2 p t hrest
    · rw [if_neg hb2]
      by_cases hb3 : (kv.1 == "user_pk") = true
      · rw [if_pos hb3]
        cases hsf : setField p kv.2.asNat with
        | none => rfl
        | some p2 => exact ih i p2 t hrest
      · rw [if_neg hb3]
        by_cases hb4 : (kv.1 == "token") = true
        · rw [if_pos hb4]
          cases hsf : setField t kv.2.asStr with
          | none => rfl
          | some t2 => exact ih i p t2 hrest
        · rw [if_neg hb4]
          exact ih i p t hrest

/-- A body none of whose fields is named `user_uid` cannot complete
decoding. -/
theorem decodeFields_missing_user_uid :
    ∀ (fields : List (String × Json)) (u : Option String) (p : Option Nat)
      (t : Option String),
      (∀ kv ∈ fields, kv.1 ≠ "user_uid") →
      decodeCreateServiceAccountFields fields u none p t = none := by
  intro fields
  induction fields with
  | nil => intro u p t _; cases u <;> rfl
  | cons kv rest ih =>
    intro u p t h
    have hb2 : (kv.1 == "user_uid") = false :=
      beq_eq_false_iff_ne.mpr (h kv (List.mem_cons_self _ _))
    have hrest := fun kv hkv => h kv (List.mem_cons_of_mem _ hkv)
    rw [decodeCreateServiceAccountFields]
    by_cases hb1 : (kv.1 == "username") = true
    · rw [if_pos hb1]
      cases hsf : setField u kv.2.asStr with
      | none => rfl
      | some u2 => exact ih u2 p t hrest
    · rw [if_neg hb1]
      simp only [hb2, Bool.false_eq_true, if_false]
      by_cases hb3 : (kv.1 == "user_pk") = true
      · rw [if_pos hb3]
        cases hsf : setField p kv.2.asNat with
        | none => rfl
        | some p2 => exact ih u p2 t hrest
      · rw [if_neg hb3]
        by_cases hb4 : (kv.1 == "token") = true
        · rw [if_pos hb4]
          cases hsf : setField t kv.2.asStr with
          | none => rfl
          | some t2 => exact ih u p t2 hrest
        · rw [if_neg hb4]
          exact ih u p t hrest

/-- A body none of whose fields is named `user_pk` cannot complete
decoding. -/
theorem decodeFields_missing_user_pk :
    ∀ (fields : List (String × Json)) (u i : Option String)
      (t : Option String),
      (∀ kv ∈ fields, kv.1 ≠ "user_pk") →
      decodeCreateServiceAccountFields fields u i none t = none := by
  intro fields
  induction fields with
  | nil => intro u i t _; cases u <;> cases i <;> rfl
  | cons kv rest ih =>
    intro u i t h
    have hb3 : (kv.1 == "user_pk") = false :=
      beq_eq_false_iff_ne.mpr (h kv (List.mem_cons_self _ _))
    have hrest := fun kv hkv => h kv (List.mem_cons_of_mem _ hkv)
    rw [decodeCreateServiceAccountFields]
    by_cases hb1 : (kv.1 == "username") = true
    · rw [if_pos hb1]
      cases hsf : setField u kv.2.asStr with
      | none => rfl
      | some u2 => exact ih u2 i t hrest
    · rw [if_neg hb1]
      by_cases hb2 : (kv.1 == "user_uid") = true
      · rw [if_pos hb2]
        cases hsf : setField i kv.2.asStr with
        | none => rfl
        | some i2 => exact ih u i2 t hrest
      · rw [if_neg hb2]
        simp only [hb3, Bool.false_eq_true, if_false]
        by_cases hb4 : (kv.1 == "token") = true
        · rw [if_pos hb4]
          cases hsf : setField t kv.2.asStr with
          | none => rfl
          | some t2 => exact ih u i t2 hrest
        · rw [if_neg hb4]
          exact ih u i t hrest

/-- A body none of whose fields is named `token` cannot complete decoding. -/
theorem decodeFields_missing_token :
    ∀ (fields : List (String × Json)) (u i : Option String) (p : Option Nat),
      (∀ kv ∈ fields, kv.1 ≠ "token") →
      decodeCreateServiceAccountFields fields u i p none = none := by
  intro fields
  induction fields with
  | nil => intro u i p _; cases u <;> cases i <;> cases p <;> rfl
  | cons kv rest ih =>
    intro u i p h
    have hb4 : (kv.1 == "token") = false :=
      beq_eq_false_iff_ne.mpr (h kv (List.mem_cons_self _ _))
    have hrest := fun kv hkv => h kv (List.mem_cons_of_mem _ hkv)
    rw [decodeCreateServiceAccountFields]
    by_cases hb1 : (kv.1 == "username") = true
    · rw [if_pos hb1]
      cases hsf : setField u kv.2.asStr with
      | none => rfl
      | some u2 => exact ih u2 i p hrest
    · rw [if_neg hb1]
      by_cases hb2 : (kv.1 == "user_uid") = true
      · rw [if_pos hb2]
        cases hsf : setField i kv.2.asStr with
        | none => rfl
        | some i2 => exact ih u i2 p hrest
      · rw [if_neg hb2]
        by_cases hb3 : (kv.1 == "user_pk") = true
        · rw [if_pos hb3]
          cases hsf : setField p kv.2.asNat with
          | none => rfl
          | some p2 => exact ih u i p2 hrest
        · rw [if_neg hb3]
          simp only [hb4, Bool.false_eq_true, if_false]
          exact ih u i p hrest

/-- C7: decoding of the create-service-account success payload tolerates any
additional unknown fields — a body with the four required fields plus extra
fields whose names are not among the declared four decodes to exactly the
four expected values; a body missing any required field yields the serde
decode error (as does a duplicated declared field, which serde rejects); and
the decode error (`SerializeError`) is a value distinct from the transport
failures (`StreamError`, `ConnectionError`). -/
theorem C7_decode_forward_compat :
    (∀ (u i : String) (p : Nat) (t : String) (extras : List (String × Json)),
      (∀ kv ∈ extras, kv.1 ≠ "username" ∧ kv.1 ≠ "user_uid" ∧
        kv.1 ≠ "user_pk" ∧ kv.1 ≠ "token") →
      decodeCreateServiceAccountResponse
        (.obj ([("username", .str u), ("user_uid", .str i),
                ("user_pk", .num p), ("token", .str t)] ++ extras)) =
        some ⟨u, i, p, t⟩) ∧
    (CreateServiceAccount.send (.ok ⟨201, .content (some exampleServiceAccountJson)⟩) =
      .ok ⟨"bot", "u1", 5, "abc"⟩) ∧
    (∀ fields : List (String × Json),
      (∀ kv ∈ fields, kv.1 ≠ "username") ∨ (∀ kv ∈ fields, kv.1 ≠ "user_uid") ∨
        (∀ kv ∈ fields, kv.1 ≠ "user_pk") ∨ (∀ kv ∈ fields, kv.1 ≠ "token") →
      decodeCreateServiceAccountResponse (.obj fields) = none) ∧
    (∀ (u i : String) (p : Nat) (t : String) (dup : Json),
      decodeCreateServiceAccountResponse
        (.obj ([("username", .str u), ("user_uid", .str i),
                ("user_pk", .num p), ("token", .str t)] ++ [("username", dup)])) =
        none) ∧
    (∀ (j : Json) (status : Nat), status ≠ 400 →
      decodeCreateServiceAccountResponse j = none →
      CreateServiceAccount.send (.ok ⟨status, .content (some j)⟩) =
        .error (.RequestError .SerializeError)) ∧
    (AKApiError.SerializeError ≠ .StreamError ∧
     AKApiError.SerializeError ≠ .ConnectionError) := by
  refine ⟨?_, rfl, ?_, ?_, ?_, by decide, by decide⟩
  · intro u i p t extras h
    exact decodeFields_ignores_unknown extras u i p t h
  · intro fields h
    rcases h with h | h | h | h
    · exact decodeFields_missing_username fields _ _ _ h
    · exact decodeFields_missing_user_uid fields _ _ _ h
    · exact decodeFields_missing_user_pk fields _ _ _ h
    · exact decodeFields_missing_token fields _ _ _ h
  · intro u i p t dup
    rfl
  · intro j status hne hdec
    simp [CreateServiceAccount.send, beq_iff_eq, hne, hdec]

/-- C7 (witness): the decode behaviour at concrete inputs — extras tolerated,
a body missing a required field rejected, and the decode error produced
through `send`. -/
theorem C7_decode_forward_compat_witness :
    decodeCreateServiceAccountResponse
      (.obj [("username", .str "bot"), ("user_uid", .str "u1"),
             ("user_pk", .num 5), ("token", .str "abc"),
             ("extra_field", .str "x")]) = some ⟨"bot", "u1", 5, "abc"⟩ ∧
    decodeCreateServiceAccountResponse (.obj [("username", .str "bot")]) = none ∧
    CreateServiceAccount.send (.ok ⟨201, .content (some (.obj []))⟩) =
      .error (.RequestError .SerializeError) :=
  ⟨C7_decode_forward_compat.1 "bot" "u1" 5 "abc" [("extra_field", .str "x")] (by decide),
   C7_decode_forward_compat.2.2.1 [("username", .str "bot")] (Or.inr (Or.inl (by decide))),
   C7_decode_forward_compat.2.2.2.2.1 (.obj []) 201 (by decide) rfl⟩

/-- C5: for every delete-flow and delete-stage request that receives an HTTP
response, status 204 yields the unit success, status 404 yields `NotFound`,
and every other status yields `Unknown` carrying that status code in its
message; the trichotomy is exhaustive, so no other outcome can arise from a
received response. -/
theorem C5_delete_status_classification (slug : String)
    (api : HttpMethod → String → Except AKApiError HttpResponse)
    (res : HttpResponse) :
    (api .DELETE (DeleteFlow.path slug) = .ok res →
      DeleteFlow.send slug api =
        if res.status = 204 then .ok ()
        else if res.status = 404 then .error .NotFound
        else .error (.Unknown ("Invalid status code " ++ toString res.status))) ∧
    (api .DELETE (DeleteStage.path slug) = .ok res →
      DeleteStage.send slug api =
        if res.status = 204 then .ok ()
        else if res.status = 404 then .error .NotFound
        else .error (.Unknown ("Invalid status code " ++ toString res.status))) := by
  rcases res with ⟨status, body⟩
  constructor
  · intro h
    simp only [DeleteFlow.send, h]
    split
    · next heq => simp_all
    · next heq => simp_all
    · next c h1 h2 => simp_all
  · intro h
    simp only [DeleteStage.send, h]
    split
    · next heq => simp_all
    · next heq => simp_all
    · next c h1 h2 => simp_all

/-- C5 (witness): the classification at concrete responses — a 404 on
delete-flow yields `NotFound`, a 500 on delete-stage yields `Unknown` with
the code in the message. -/
theorem C5_delete_status_classification_witness :
    DeleteFlow.send "my flow" (fun _ _ => .ok ⟨404, .content none⟩) =
      .error .NotFound ∧
    DeleteStage.send "s1" (fun _ _ => .ok ⟨500, .content none⟩) =
      .error (.Unknown "Invalid status code 500") :=
  ⟨(C5_delete_status_classification "my flow"
      (fun _ _ => .ok ⟨404, .content none⟩) ⟨404, .content none⟩).1 rfl,
   (C5_delete_status_classification "s1"
      (fun _ _ => .ok ⟨500, .content none⟩) ⟨500, .content none⟩).2 rfl⟩

/-- Code points of `Char` are below 0x110000. -/
theorem char_toNat_lt (c : Char) : c.toNat < 1114112 := by
  have heq : c.toNat = c.val.toNat := rfl
  have h := c.valid
  rcases h with h | h
  · have : c.val.toNat < 55296 := h
    omega
  · have : c.val.toNat < 1114112 := h.2
    omega

/-- UTF-8 bytes are below 256. -/
theorem utf8Bytes_lt (c : Char) : ∀ b ∈ utf8Bytes c, b < 256 := by
  intro b hb
  have hc := char_toNat_lt c
  simp only [utf8Bytes] at hb
  by_cases h1 : c.toNat < 128
  · rw [if_pos h1] at hb
    simp only [List.mem_singleton] at hb
    omega
  · rw [if_neg h1] at hb
    by_cases h2 : c.toNat < 2048
    · rw [if_pos h2] at hb
      simp only [List.mem_cons, List.mem_singleton, List.not_mem_nil, or_false] at hb
      omega
    · rw [if_neg h2] at hb
      by_cases h3 : c.toNat < 65536
      · rw [if_pos h3] at hb
        simp only [List.mem_cons, List.mem_singleton, List.not_mem_nil, or_false] at hb
        omega
      · rw [if_neg h3] at hb
        simp only [List.mem_cons, List.mem_singleton, List.not_mem_nil, or_false] at hb
        omega

/-- Every byte of a string's UTF-8 encoding is below 256. -/
theorem stringBytes_lt (s : String) : ∀ b ∈ stringBytes s, b < 256 := by
  intro b hb
  unfold stringBytes at hb
  rw [List.mem_flatten] at hb
  obtain ⟨l, hl, hbl⟩ := hb
  rw [List.mem_map] at hl
  obtain ⟨c, _, rfl⟩ := hl
  exact utf8Bytes_lt c b hbl

/-- `Char.ofNat` is a section of `Char.toNat` below the surrogate range. -/
theorem char_toNat_ofNat (n : Nat) (h : n < 55296) : (Char.ofNat n).toNat = n := by
  unfold Char.ofNat
  rw [dif_pos (Or.inl h)]
  rfl

/-- Unreserved bytes are ASCII and are neither the space byte nor the slash
byte. -/
theorem isUrlUnreserved_bounds (b : Nat) (h : isUrlUnreserved b = true) :
    b < 128 ∧ b ≠ 32 ∧ b ≠ 47 := by
  simp only [isUrlUnreserved, Bool.or_eq_true, Bool.and_eq_true,
    decide_eq_true_eq, beq_iff_eq] at h
  omega

/-- Hexadecimal digits are neither a space nor a slash. -/
theorem hexDigitChar_ne (n : Nat) (h : n < 16) :
    hexDigitChar n ≠ ' ' ∧ hexDigitChar n ≠ '/' := by
  interval_cases n <;> exact ⟨by decide, by decide⟩

/-- Percent-encoding a byte never emits a space or a slash. -/
theorem encodeByte_ne (b : Nat) (hb : b < 256) :
    ∀ c ∈ encodeByte b, c ≠ ' ' ∧ c ≠ '/' := by
  intro c hc
  unfold encodeByte at hc
  by_cases h : isUrlUnreserved b = true
  · rw [if_pos h] at hc
    simp at hc
    subst hc
    obtain ⟨hlt, h32, h47⟩ := isUrlUnreserved_bounds b h
    have ht := char_toNat_ofNat b (by omega)
    constructor
    · intro he; rw [he] at ht; exact h32 ht.symm
    · intro he; rw [he] at ht; exact h47 ht.symm
  · rw [if_neg h] at hc
    simp at hc
    rcases hc with rfl | rfl | rfl
    · exact ⟨by decide, by decide⟩
    · exact hexDigitChar_ne (b / 16) (by omega)
    · exact hexDigitChar_ne (b % 16) (by omega)

/-- Percent-encoded output contains no raw space and no raw slash. -/
theorem urlencode_no_reserved (s : String) :
    ∀ c ∈ (urlencode s).toList, c ≠ ' ' ∧ c ≠ '/' := by
  intro c hc
  have hrepr : (urlencode s).toList = ((stringBytes s).map encodeByte).flatten := rfl
  rw [hrepr, List.mem_flatten] at hc
  obtain ⟨l, hl, hcl⟩ := hc
  rw [List.mem_map] at hl
  obtain ⟨b, hbmem, rfl⟩ := hl
  exact encodeByte_ne b (stringBytes_lt s b hbmem) c hcl

/-- C6: the delete-flow and delete-stage request paths embed exactly the
percent-encoding of the caller-supplied slug as the path segment; the
encoding emits no raw space and no raw slash, so reserved characters are
transmitted unambiguously; in particular the slug `"my flow"` produces the
path `/api/v3/flows/instances/my%20flow/`. -/
theorem C6_percent_encoded_path :
    (∀ slug, DeleteFlow.path slug = "/api/v3/flows/instances/" ++ urlencode slug ++ "/") ∧
    (∀ slug, DeleteStage.path slug = "/api/v3/stages/all/" ++ urlencode slug ++ "/") ∧
    (∀ slug, ∀ c ∈ (urlencode slug).toList, c ≠ ' ' ∧ c ≠ '/') ∧
    DeleteFlow.path "my flow" = "/api/v3/flows/instances/my%20flow/" ∧
    DeleteStage.path "my flow" = "/api/v3/stages/all/my%20flow/" ∧
    urlencode "a/b" = "a%2Fb" :=
  ⟨fun _ => rfl, fun _ => rfl, fun slug => urlencode_no_reserved slug,
   by decide, by decide, by decide⟩

/-- C6 (witness): the no-reserved-characters property applied to a concrete
slug and character. -/
theorem C6_percent_encoded_path_witness :
    '%' ∈ (urlencode "my flow").toList ∧ ('%' ≠ ' ' ∧ '%' ≠ '/') :=
  ⟨by decide, C6_percent_encoded_path.2.2.1 "my flow" '%' (by decide)⟩
